import Mathlib

/-!
Shallow embedding of the reddit-scraper-api repository.

The repository holds two revisions of the same service:
  * a Flask revision (`src/app.py`) backed by an Excel workbook read through
    pandas (sheets `users` and `personalities` are modelled as lists of rows);
  * a FastAPI revision (`src/app/routers/scraper_simple.py` with
    `src/app/database.py` and `src/app/models_simple.py`) backed by a
    relational table.

Pure data transformations are translated directly; the pandas / SQLAlchemy
store is modelled as explicit state (lists of rows) threaded through each
operation, and the nondeterministic inputs of the code (`uuid.uuid4()`,
`datetime.now()`, autogenerated primary keys) are passed in as parameters.
Outbound capabilities (the reddit client, the OpenAI client) are passed in as
functions; a fallible capability returns `Except`.
-/

namespace RedditScraper

/-- A row of the Excel `users` sheet (`init_excel_db` in `src/app.py`). -/
structure UserRow where
  telegram_id : Int
  username : String
  first_name : String
  created_at : String
deriving DecidableEq, Repr

/-- A row of the Excel `personalities` sheet (`init_excel_db` in `src/app.py`). -/
structure PersonalityRow where
  personality_id : String
  telegram_id : Int
  name : String
  description : String
  prompt_template : String
  temperature : ℚ
  max_tokens : Int
  is_default : Bool
  created_at : String
deriving DecidableEq, Repr

/-- The Excel workbook state used by the Flask revision (the `history` sheet is
only appended to and never read by the claims, so it is omitted). -/
structure ExcelDB where
  users : List UserRow
  personalities : List PersonalityRow
deriving DecidableEq, Repr

/-- `users_df[users_df['telegram_id'] == telegram_id]` followed by taking the
first row, as in `get_or_create_user` (`src/app.py:67`). -/
def findUser (db : ExcelDB) (tid : Int) : Option UserRow :=
  db.users.find? (fun u => u.telegram_id == tid)

/-- The seed personality inserted by `create_default_personality`
(`src/app.py:105`); `mkRat 7 10` is the seed temperature `0.7`. -/
def seedPersonality (tid : Int) (pid now : String) : PersonalityRow :=
  { personality_id := pid
    telegram_id := tid
    name := "default"
    description := "Default friendly personality"
    prompt_template := "Please rewrite this Reddit post title in a more engaging way while keeping the main points: {original_title}"
    temperature := mkRat 7 10
    max_tokens := 100
    is_default := true
    created_at := now }

/-- `create_default_personality` (`src/app.py:93`): appends the seed row only
when the user has no row with `is_default = True` yet. -/
def create_default_personality (db : ExcelDB) (tid : Int) (pid now : String) : ExcelDB :=
  let existing_default := db.personalities.filter
    (fun p => p.telegram_id == tid && p.is_default)
  if existing_default.isEmpty then
    { db with personalities := db.personalities ++ [seedPersonality tid pid now] }
  else
    db

/-- `get_or_create_user` (`src/app.py:61`): returns the existing row
unchanged, or appends a new user row and seeds its default personality. -/
def get_or_create_user (db : ExcelDB) (tid : Int) (username first_name : Option String)
    (pid now : String) : UserRow × ExcelDB :=
  match findUser db tid with
  | some u => (u, db)
  | none =>
    let newUser : UserRow :=
      { telegram_id := tid
        username := username.getD ""
        first_name := first_name.getD ""
        created_at := now }
    let db1 : ExcelDB := { db with users := db.users ++ [newUser] }
    (newUser, create_default_personality db1 tid pid now)

/-- `get_user_personalities` (`src/app.py:126`). -/
def get_user_personalities (db : ExcelDB) (tid : Int) : List PersonalityRow :=
  db.personalities.filter (fun p => p.telegram_id == tid)

/-- Result of `create_personality` in `src/app.py`: either the new row or the
`{"error": ...}` dict. -/
inductive CreateResult where
  | ok (p : PersonalityRow)
  | err (msg : String)
deriving DecidableEq, Repr

/-- The `DuplicateName` message text of `src/app.py:148`. -/
def duplicateNameMsg (name : String) : String :=
  "Personality \x27" ++ name ++ "\x27 already exists!"

/-- The demotion applied per row by `create_personality` when the new row is
default (`src/app.py:151`): rows of the given user get `is_default` cleared,
other rows pass through. -/
def demoteRow (tid : Int) (p : PersonalityRow) : PersonalityRow :=
  if p.telegram_id == tid then { p with is_default := false } else p

/-- The `new_personality` dict built by `create_personality`
(`src/app.py:156`). -/
def newPersonalityRow (tid : Int) (name description prompt_template : String)
    (temperature : ℚ) (max_tokens : Int) (is_default : Bool) (pid now : String) :
    PersonalityRow :=
  { personality_id := pid
    telegram_id := tid
    name := name
    description := description
    prompt_template := prompt_template
    temperature := temperature
    max_tokens := max_tokens
    is_default := is_default
    created_at := now }

/-- `create_personality` (`src/app.py:136`): rejects a duplicate name for the
same user; when `is_default` is set, first demotes every personality of that
user, then appends the new row. -/
def create_personality (db : ExcelDB) (tid : Int) (name description prompt_template : String)
    (temperature : ℚ) (max_tokens : Int) (is_default : Bool) (pid now : String) :
    CreateResult × ExcelDB :=
  let existing := db.personalities.filter
    (fun p => p.telegram_id == tid && p.name == name)
  if !existing.isEmpty then
    (.err (duplicateNameMsg name), db)
  else
    let demoted :=
      if is_default then
        db.personalities.map (demoteRow tid)
      else
        db.personalities
    let newP := newPersonalityRow tid name description prompt_template
      temperature max_tokens is_default pid now
    (.ok newP, { db with personalities := demoted ++ [newP] })

/-- Result of `delete_personality` in `src/app.py`: the `{"success": ...}` or
`{"error": ...}` dict. -/
inductive DeleteResult where
  | ok (msg : String)
  | err (msg : String)
deriving DecidableEq, Repr

/-- The `PersonalityNotFound` message text of `src/app.py:190`. -/
def notFoundMsg (name : String) : String :=
  "Personality \x27" ++ name ++ "\x27 not found!"

/-- The `LastPersonalityError` message text of `src/app.py:195`. -/
def lastPersonalityMsg : String :=
  "Cannot delete the only personality! Create another one first."

/-- The success message text of `src/app.py:206`. -/
def deleteSuccessMsg (name : String) : String :=
  "Personality \x27" ++ name ++ "\x27 deleted successfully!"

/-- `delete_personality` (`src/app.py:178`): errors when no row matches;
errors when the user has exactly one personality and the matched row is the
default; otherwise removes every row of that user with that name. -/
def delete_personality (db : ExcelDB) (tid : Int) (pname : String) :
    DeleteResult × ExcelDB :=
  let toDelete := db.personalities.filter
    (fun p => p.telegram_id == tid && p.name == pname)
  match toDelete with
  | [] => (.err (notFoundMsg pname), db)
  | p0 :: _ =>
    let user_personalities := db.personalities.filter (fun p => p.telegram_id == tid)
    if user_personalities.length == 1 && p0.is_default then
      (.err lastPersonalityMsg, db)
    else
      let remaining := db.personalities.filter
        (fun p => !(p.telegram_id == tid && p.name == pname))
      (.ok (deleteSuccessMsg pname), { db with personalities := remaining })

/-- A fetched submission as the handler reads it off the praw object
(`src/app.py:286`); `created_utc` carries epoch seconds (kept integral, no
claim depends on fractional seconds), `author = none` models a removed
author. -/
structure Post where
  id : String
  title : String
  score : Int
  url : String
  permalink : String
  created_utc : Int
  author : Option String
  subreddit_name : String
deriving DecidableEq, Repr

/-- The reddit listing capability: `subreddit_obj.hot/new/top/rising`
(`src/app.py:272`). `top` additionally takes the `time_filter`. -/
structure Subreddit where
  hot : Int → List Post
  new : Int → List Post
  top : String → Int → List Post
  rising : Int → List Post

/-- The sort dispatch of `scrape_reddit` (`src/app.py:272`): an unrecognized
sort falls through to the final `else`, which calls `hot`. -/
def getSubmissions (sub : Subreddit) (sort time_filter : String) (limit : Int) :
    List Post :=
  if sort == "hot" then sub.hot limit
  else if sort == "new" then sub.new limit
  else if sort == "top" then sub.top time_filter limit
  else if sort == "rising" then sub.rising limit
  else sub.hot limit

/-- `limit = min(data.get('limit', 10), 50)` (`src/app.py:242`). -/
def clampLimit (requested : Int) : Int :=
  min requested 50

/-- A praw listing with a `limit` yields at most `limit` of the available
submissions, in the order the capability supplies them. -/
def listingTake (avail : List Post) (limit : Int) : List Post :=
  avail.take limit.toNat

/-- A concrete `Subreddit` capability built from the available submissions of
each listing. -/
def mkSubreddit (hotAvail newAvail risingAvail : List Post)
    (topAvail : String → List Post) : Subreddit :=
  { hot := fun l => listingTake hotAvail l
    new := fun l => listingTake newAvail l
    top := fun tf l => listingTake (topAvail tf) l
    rising := fun l => listingTake risingAvail l }

/-- The availability list that the sort dispatch of `src/app.py:272` selects. -/
def availOf (hotAvail newAvail risingAvail : List Post)
    (topAvail : String → List Post) (sort time_filter : String) : List Post :=
  if sort == "hot" then hotAvail
  else if sort == "new" then newAvail
  else if sort == "top" then topAvail time_filter
  else if sort == "rising" then risingAvail
  else hotAvail

/-- A JSON-ish scalar stored in a per-post record dict. -/
inductive JValue where
  | s (v : String)
  | i (v : Int)
  | b (v : Bool)
  | nullv
deriving DecidableEq, Repr

/-- Drop every leading and trailing character satisfying `p`; Python
`str.strip(chars)` with `p` the membership test. -/
def stripWhile (p : Char → Bool) (s : String) : String :=
  String.mk (((s.toList.dropWhile p).reverse.dropWhile p).reverse)

/-- Python `str.strip()`: drop surrounding whitespace. -/
def pyStrip (s : String) : String :=
  stripWhile Char.isWhitespace s

/-- Replace every non-overlapping occurrence of `pat` left to right, with a
fuel argument bounding the scan; Python `str.replace` semantics for a
non-empty `pat`. -/
def replaceFuel : Nat → List Char → List Char → List Char → List Char
  | 0, _, _, s => s
  | Nat.succ n, pat, rep, s =>
    if pat.isPrefixOf s then rep ++ replaceFuel n pat rep (s.drop pat.length)
    else
      match s with
      | [] => []
      | c :: rest => c :: replaceFuel n pat rep rest

/-- Python `str.replace(pat, rep)` for a non-empty `pat`. -/
def pyReplace (s pat rep : String) : String :=
  String.mk (replaceFuel s.toList.length pat.toList rep.toList s.toList)

def quoteChar : Char := Char.ofNat 34

def apostropheChar : Char := Char.ofNat 39

/-- `response.choices[0].message.content.strip().strip(quote).strip(apostrophe)`
(`src/app.py:313`). -/
def aiTitleOfResponse (resp : String) : String :=
  stripWhile (fun x => x == apostropheChar)
    (stripWhile (fun x => x == quoteChar) (pyStrip resp))

/-- `personality['name'] if personality else "none"` (`src/app.py:319`). -/
def personalityUsedName (personality : Option PersonalityRow) : String :=
  match personality with
  | some p => p.name
  | none => "none"

/-- The per-submission loop body of `scrape_reddit` (`src/app.py:285`):
builds the `post_data` dict, optionally calls the rewrite capability (prompt,
temperature, max_tokens), falls back to the original title on any capability
failure, then appends `personality_used`. -/
def processPost (cap : String → ℚ → Int → Except String String) (use_ai : Bool)
    (personality : Option PersonalityRow) (subredditName : String) (sm : Post) :
    List (String × JValue) :=
  let base : List (String × JValue) :=
    [("id", .s sm.id), ("title", .s sm.title), ("score", .i sm.score),
     ("url", .s sm.url), ("permalink", .s ("https://reddit.com" ++ sm.permalink)),
     ("created_utc", .i sm.created_utc),
     ("author", .s (sm.author.getD "[deleted]")),
     ("subreddit", .s subredditName), ("original_title", .s sm.title)]
  let withAI :=
    match use_ai, personality with
    | true, some pers =>
      let prompt := pyReplace pers.prompt_template "{original_title}" sm.title
      match cap prompt pers.temperature pers.max_tokens with
      | .ok resp => base ++ [("ai_title", .s (aiTitleOfResponse resp))]
      | .error _ => base ++ [("ai_title", .s sm.title)]
    | _, _ => base
  withAI ++ [("personality_used", .s (personalityUsedName personality))]

/-- The whole `results` accumulation loop of `src/app.py:284`. -/
def processPosts (cap : String → ℚ → Int → Except String String) (use_ai : Bool)
    (personality : Option PersonalityRow) (subredditName : String)
    (submissions : List Post) : List (List (String × JValue)) :=
  submissions.map (processPost cap use_ai personality subredditName)

/-- A value of a response envelope: a scalar, the results array, or JSON
null. -/
inductive EValue where
  | j (v : JValue)
  | records (rs : List (List (String × JValue)))
  | null
deriving DecidableEq, Repr

/-- The field names of an envelope, in order. -/
def envKeys (env : List (String × EValue)) : List String :=
  env.map Prod.fst

/-- The success response of the Flask `scrape_reddit` (`src/app.py:339`). -/
def flaskSuccessEnvelope (task_id subredditName : String) (tid : Int)
    (results : List (List (String × JValue))) (use_ai : Bool)
    (personality : Option PersonalityRow) : List (String × EValue) :=
  [("task_id", .j (.s task_id)),
   ("status", .j (.s "completed")),
   ("message", .j (.s ("Successfully scraped " ++ toString results.length ++
     " posts from r/" ++ subredditName))),
   ("telegram_id", .j (.i tid)),
   ("results", .records results),
   ("ai_used", .j (.b use_ai)),
   ("personality_used", .j (.s (personalityUsedName personality)))]

/-- The exception response of the Flask `scrape_reddit` (`src/app.py:350`). -/
def flaskFailureEnvelope (task_id : String) (tid : Int) (errMsg : String) :
    List (String × EValue) :=
  [("task_id", .j (.s task_id)),
   ("status", .j (.s "failed")),
   ("message", .j (.s errMsg)),
   ("telegram_id", .j (.i tid)),
   ("results", .null)]

/-- The `next(...)` personality resolution of the Flask `scrape_reddit`
(`src/app.py:260`): `"default"` picks the first row with `is_default`, any
other name the first row with that exact name, among the user's rows. -/
def resolvePersonality (db : ExcelDB) (tid : Int) (pname : String) :
    Option PersonalityRow :=
  let personalities := get_user_personalities db tid
  if pname == "default" then
    personalities.find? (fun p => p.is_default)
  else
    personalities.find? (fun p => p.name == pname)

/-- A row of the relational `users` table (`src/app/database.py:16`). Only
the columns the handler reads are carried. -/
structure SUser where
  user_id : Int
  telegram_id : Int
deriving DecidableEq, Repr

/-- A row of the relational `ai_personalities` table
(`src/app/database.py:28`); `temperature` and `max_tokens` default to `0.7`
and `100` by the column definitions. -/
structure SPersonality where
  personality_id : Int
  user_id : Int
  name : String
  description : String
  prompt_template : String
  temperature : ℚ
  max_tokens : Int
  is_default : Bool
deriving DecidableEq, Repr

/-- The relational store of the FastAPI revision. -/
structure SqlDB where
  users : List SUser
  personalities : List SPersonality
deriving DecidableEq, Repr

/-- `ScrapeRequest` (`src/app/models_simple.py:6`) with its field defaults. -/
structure ScrapeRequest where
  subreddit : String
  limit : Int := 10
  sort : String := "hot"
  time_filter : String := "week"
  telegram_id : Int := 0
  personality_name : String := "default"
deriving DecidableEq, Repr

/-- `ScrapeResponse` (`src/app/models_simple.py:50`). -/
structure ScrapeResponse where
  task_id : String
  status : String
  message : String
  telegram_id : Int
  results : Option (List (List (String × JValue)))
deriving DecidableEq, Repr

/-- `ScrapeResponse.to_dict` (`src/app/models_simple.py:57`): the five keys
are emitted unconditionally, `results` as null when absent. -/
def ScrapeResponse.to_dict (r : ScrapeResponse) : List (String × EValue) :=
  [("task_id", .j (.s r.task_id)),
   ("status", .j (.s r.status)),
   ("message", .j (.s r.message)),
   ("telegram_id", .j (.i r.telegram_id)),
   ("results", match r.results with
     | some rs => .records rs
     | none => .null)]

/-- A Python exception as the FastAPI handler sees it: the fastapi
`HTTPException` (a subclass of `Exception`, hence caught by the handler's
generic `except`) or any other exception. -/
inductive PyExc where
  | http (status_code : Int) (detail : String)
  | generic (msg : String)
deriving DecidableEq, Repr

/-- `str(e)` as the handler's `except` branch renders it
(`src/app/routers/scraper_simple.py:114`); starlette renders an
`HTTPException` as `"<code>: <detail>"`. -/
def pyStr (e : PyExc) : String :=
  match e with
  | .http code detail => toString code ++ ": " ++ detail
  | .generic m => m

/-- The seed prompt template of the FastAPI user-creation branch
(`src/app/routers/scraper_simple.py:49`). -/
def defaultSimplePrompt : String :=
  "Please rewrite the following Reddit post title in a more engaging way while keeping the main points:\n\n{original_title}\n\nMake it more conversational and add some personality. Keep the tone friendly and approachable."

/-- The user-resolution prefix of the FastAPI `scrape_reddit`
(`src/app/routers/scraper_simple.py:36`): an unknown `telegram_id` gets a new
user row plus a seeded default personality (fresh primary keys passed in). -/
def resolveUserSimple (db : SqlDB) (tid : Int) (freshUid freshPid : Int) :
    SUser × SqlDB :=
  match db.users.find? (fun u => u.telegram_id == tid) with
  | some u => (u, db)
  | none =>
    let u : SUser := { user_id := freshUid, telegram_id := tid }
    let pers : SPersonality :=
      { personality_id := freshPid
        user_id := freshUid
        name := "default"
        description := "Default friendly personality"
        prompt_template := defaultSimplePrompt
        temperature := mkRat 7 10
        max_tokens := 100
        is_default := true }
    (u, { users := db.users ++ [u], personalities := db.personalities ++ [pers] })

/-- The personality query of the FastAPI `scrape_reddit`
(`src/app/routers/scraper_simple.py:60`). -/
def findSimplePersonality (db : SqlDB) (uid : Int) (pname : String) :
    Option SPersonality :=
  if pname == "default" then
    db.personalities.find? (fun p => p.user_id == uid && p.is_default)
  else
    db.personalities.find? (fun p => p.user_id == uid && p.name == pname)

/-- The `AIEnhancedPost(**post, ...).to_dict()` record built per post
(`src/app/routers/scraper_simple.py:92`); its dataclass
(`src/app/models_simple.py:33`) fixes exactly these fields. -/
def enhancedPostDict (p : Post) (personality_used : String) (ai_title : String) :
    List (String × JValue) :=
  [("id", .s p.id), ("title", .s p.title), ("score", .i p.score),
   ("url", .s p.url), ("permalink", .s p.permalink),
   ("created_utc", .i p.created_utc),
   ("author", match p.author with
     | some a => .s a
     | none => .nullv),
   ("subreddit", .s p.subreddit_name), ("original_title", .s p.title),
   ("ai_title", .s ai_title), ("personality_used", .s personality_used)]

/-- The `try` block of the FastAPI `scrape_reddit`
(`src/app/routers/scraper_simple.py:34`): resolve or create the user, query
the personality (raising the 404 `HTTPException` when absent), fetch, then
map every post through the rewrite capability. `fetch` carries the fetched
posts or a raised fetch exception; `aiTitle` is the
`openai_service.generate_ai_title` capability (title, template, temperature,
max_tokens). An `error` result carries the store state at raise time. -/
def scrapeSimpleBody (db : SqlDB) (req : ScrapeRequest)
    (fetch : Except String (List Post))
    (aiTitle : String → String → ℚ → Int → String)
    (freshUid freshPid : Int) (task_id : String) :
    Except (PyExc × SqlDB) (ScrapeResponse × SqlDB) :=
  let resolved := resolveUserSimple db req.telegram_id freshUid freshPid
  let user := resolved.1
  let db1 := resolved.2
  match findSimplePersonality db1 user.user_id req.personality_name with
  | none =>
    .error (.http 404 ("Personality \x27" ++ req.personality_name ++ "\x27 not found"), db1)
  | some pers =>
    match fetch with
    | .error e => .error (.generic e, db1)
    | .ok posts =>
      let enhanced := posts.map
        (fun p => enhancedPostDict p pers.name
          (aiTitle p.title pers.prompt_template pers.temperature pers.max_tokens))
      .ok ({ task_id := task_id
             status := "completed"
             message := "Successfully scraped " ++ toString enhanced.length ++
               " posts from r/" ++ req.subreddit
             telegram_id := req.telegram_id
             results := some enhanced }, db1)

/-- The whole FastAPI `scrape_reddit` handler
(`src/app/routers/scraper_simple.py:24`): the `try` body wrapped in the
generic `except Exception` that turns every raised exception — the 404
`HTTPException` included — into a `status = "failed"` envelope with
`str(e)` as the message. -/
def scrape_reddit_simple (db : SqlDB) (req : ScrapeRequest)
    (fetch : Except String (List Post))
    (aiTitle : String → String → ℚ → Int → String)
    (freshUid freshPid : Int) (task_id : String) : ScrapeResponse × SqlDB :=
  match scrapeSimpleBody db req fetch aiTitle freshUid freshPid task_id with
  | .ok r => r
  | .error (e, db1) =>
    ({ task_id := task_id
       status := "failed"
       message := pyStr e
       telegram_id := req.telegram_id
       results := none }, db1)

/-- The new user row appended by `get_or_create_user` (`src/app.py:72`),
with the `username or ''` defaulting applied. -/
def freshUserRow (tid : Int) (un fn : Option String) (now : String) : UserRow :=
  { telegram_id := tid, username := un.getD "", first_name := fn.getD "",
    created_at := now }

/-- The store after `get_or_create_user` runs on an id it has never seen:
the new user row and the seeded default personality are appended. -/
def freshDB (db : ExcelDB) (tid : Int) (un fn : Option String) (pid now : String) :
    ExcelDB :=
  { users := db.users ++ [freshUserRow tid un fn now]
    personalities := db.personalities ++ [seedPersonality tid pid now] }

/-- Number of personalities of a user flagged `is_default` in the Excel
store. -/
def countDefaults (db : ExcelDB) (tid : Int) : Nat :=
  (db.personalities.filter (fun p => p.telegram_id == tid && p.is_default)).length

/-! Concrete sample inputs used to instantiate the theorems below. -/

/-- An Excel store holding nothing at all. -/
def emptyExcelDB : ExcelDB := { users := [], personalities := [] }

/-- A user whose single personality is not flagged default. -/
def soloRow : PersonalityRow :=
  { personality_id := "p1", telegram_id := 7, name := "solo", description := "d",
    prompt_template := "t", temperature := 1, max_tokens := 50,
    is_default := false, created_at := "2024" }

/-- An Excel store whose only personality row is `soloRow`. -/
def soloDB : ExcelDB := { users := [], personalities := [soloRow] }

/-- A rewrite capability that fails on every call. -/
def failingCap : String → ℚ → Int → Except String String :=
  fun _ _ _ => .error "AI Error"

/-- A sample fetched submission. -/
def samplePost : Post :=
  { id := "abc", title := "Hello Reddit", score := 5, url := "https://x",
    permalink := "/r/test/abc", created_utc := 1700000000, author := some "alice",
    subreddit_name := "test" }

/-- The seeded default personality of user 7. -/
def sampleDefaultRow : PersonalityRow := seedPersonality 7 "pid" "now"

/-- A sample reddit capability whose listings each have one available post. -/
def sampleSubreddit : Subreddit :=
  mkSubreddit [samplePost] [samplePost] [samplePost] (fun _ => [samplePost])

/-- A relational store holding one user and no personalities. -/
def sampleSqlDB : SqlDB :=
  { users := [{ user_id := 1, telegram_id := 7 }], personalities := [] }

/-- The row created by the sample `create_personality` call of the theorems
below. -/
def c3WitnessRow : PersonalityRow :=
  newPersonalityRow 7 "n" "d" "t" 1 100 true "pid" "now"

/-- An Excel store whose only personality row is user 7's seeded default. -/
def defaultOnlyDB : ExcelDB := { users := [], personalities := [sampleDefaultRow] }

/-- A scrape request naming a personality the user does not have. -/
def sampleMissingReq : ScrapeRequest :=
  { subreddit := "python", limit := 5, sort := "hot", time_filter := "week",
    telegram_id := 7, personality_name := "missing" }

/-! Helper lemmas shared by the claim theorems. -/

/-- A filter by user id and a further condition is empty whenever the filter
by user id alone is. -/
theorem filter_and_eq_nil (l : List PersonalityRow) (tid : Int)
    (h : l.filter (fun p => p.telegram_id == tid) = []) (q : PersonalityRow → Bool) :
    l.filter (fun p => p.telegram_id == tid && q p) = [] := by
  induction l with
  | nil => rfl
  | cons a l ih =>
    rw [List.filter_cons] at h ⊢
    by_cases ht : a.telegram_id == tid
    · simp [ht] at h
    · simp only [ht, Bool.false_and, Bool.false_eq_true, if_false] at h ⊢
      exact ih h

/-- A filter over a mapped list is empty when the predicate rejects every
mapped element. -/
theorem filter_map_eq_nil (f : PersonalityRow → PersonalityRow)
    (q : PersonalityRow → Bool) (l : List PersonalityRow)
    (h : ∀ a, q (f a) = false) : (l.map f).filter q = [] := by
  induction l with
  | nil => rfl
  | cons a l ih =>
    rw [List.map_cons, List.filter_cons, h a]
    simpa using ih

/-- A filter commutes with a map that fixes every element the predicate
keeps and preserves the predicate's value. -/
theorem filter_map_of_fixed (f : PersonalityRow → PersonalityRow)
    (q : PersonalityRow → Bool) (l : List PersonalityRow)
    (hq : ∀ a, q (f a) = q a) (hfix : ∀ a, q a = true → f a = a) :
    (l.map f).filter q = l.filter q := by
  induction l with
  | nil => rfl
  | cons a l ih =>
    rw [List.map_cons, List.filter_cons, List.filter_cons, hq a]
    by_cases hqa : q a = true
    · rw [if_pos hqa, if_pos hqa, hfix a hqa, ih]
    · rw [if_neg hqa, if_neg hqa, ih]

/-- `demoteRow` never produces a default row of the demoted user. -/
theorem demoteRow_not_default (tid : Int) (a : PersonalityRow) :
    ((demoteRow tid a).telegram_id == tid && (demoteRow tid a).is_default) = false := by
  unfold demoteRow
  by_cases h : a.telegram_id == tid
  · rw [if_pos h]
    exact Bool.and_false _
  · rw [if_neg h]
    exact by simp [h]

/-- After the demotion pass of `create_personality`, the user has no default
personality left. -/
theorem filter_default_of_demote (l : List PersonalityRow) (tid : Int) :
    (l.map (demoteRow tid)).filter
      (fun p => p.telegram_id == tid && p.is_default) = [] :=
  filter_map_eq_nil _ _ l (demoteRow_not_default tid)

/-- The demotion pass of `create_personality` leaves the rows of any other
user untouched. -/
theorem filter_other_of_demote (l : List PersonalityRow) (u v : Int) (h : v ≠ u) :
    (l.map (demoteRow u)).filter (fun p => p.telegram_id == v)
      = l.filter (fun p => p.telegram_id == v) := by
  apply filter_map_of_fixed
  · intro a
    unfold demoteRow
    by_cases hu : a.telegram_id == u
    · rw [if_pos hu]
    · rw [if_neg hu]
  · intro a ha
    have hav : a.telegram_id = v := beq_iff_eq.mp ha
    unfold demoteRow
    rw [if_neg]
    intro hu
    exact h (hav ▸ beq_iff_eq.mp hu)

/-- The removal pass of `delete_personality` leaves the rows of any other
user untouched. -/
theorem filter_other_of_remove (l : List PersonalityRow) (u v : Int) (pname : String)
    (h : v ≠ u) :
    (l.filter (fun p => !(p.telegram_id == u && p.name == pname))).filter
      (fun p => p.telegram_id == v) = l.filter (fun p => p.telegram_id == v) := by
  rw [List.filter_filter]
  apply List.filter_congr
  intro a _
  by_cases hv : a.telegram_id == v
  · have ha : a.telegram_id = v := beq_iff_eq.mp hv
    have hu : (a.telegram_id == u) = false := by
      apply beq_eq_false_iff_ne.mpr
      rw [ha]
      exact h
    simp [hv, hu]
  · simp [hv]

/-- `getSubmissions` over a concrete capability takes a prefix of the
availability list the sort dispatch selects. -/
theorem getSubmissions_mk (hA nA rA : List Post) (tA : String → List Post)
    (sort tf : String) (lim : Int) :
    getSubmissions (mkSubreddit hA nA rA tA) sort tf lim =
      listingTake (availOf hA nA rA tA sort tf) lim := by
  unfold getSubmissions mkSubreddit availOf
  split_ifs <;> rfl

/-- A fresh user resolution: `get_or_create_user` on an id absent from the
store appends the user row and the seeded default personality. -/
theorem get_or_create_user_fresh (db : ExcelDB) (tid : Int) (un fn : Option String)
    (pid now : String) (habs : findUser db tid = none)
    (hnop : get_user_personalities db tid = []) :
    get_or_create_user db tid un fn pid now =
      (freshUserRow tid un fn now, freshDB db tid un fn pid now) := by
  unfold get_user_personalities at hnop
  have hfd : db.personalities.filter (fun p => p.telegram_id == tid && p.is_default) = [] :=
    filter_and_eq_nil db.personalities tid hnop (fun p => p.is_default)
  unfold get_or_create_user create_default_personality
  rw [habs]
  simp [hfd, freshUserRow, freshDB]

/-- The success branch of `create_personality`: no duplicate name means the
new row is appended after the (conditional) demotion pass. -/
theorem create_personality_eq_ok (db : ExcelDB) (tid : Int)
    (name description template : String) (temp : ℚ) (mt : Int) (isDef : Bool)
    (pid now : String)
    (hdup : (db.personalities.filter
      (fun p => p.telegram_id == tid && p.name == name)).isEmpty = true) :
    create_personality db tid name description template temp mt isDef pid now =
      (.ok (newPersonalityRow tid name description template temp mt isDef pid now),
        { db with personalities :=
            (if isDef then db.personalities.map (demoteRow tid) else db.personalities)
              ++ [newPersonalityRow tid name description template temp mt isDef pid now] }) := by
  simp only [create_personality, hdup, Bool.not_true, Bool.false_eq_true, if_false]

/-- The duplicate-name branch of `create_personality`. -/
theorem create_personality_eq_err (db : ExcelDB) (tid : Int)
    (name description template : String) (temp : ℚ) (mt : Int) (isDef : Bool)
    (pid now : String)
    (hdup : (db.personalities.filter
      (fun p => p.telegram_id == tid && p.name == name)).isEmpty = false) :
    create_personality db tid name description template temp mt isDef pid now =
      (.err (duplicateNameMsg name), db) := by
  simp only [create_personality, hdup, Bool.not_false, if_true]

/-- The not-found branch of `delete_personality`. -/
theorem delete_personality_eq_notFound (db : ExcelDB) (tid : Int) (pname : String)
    (h : db.personalities.filter
      (fun p => p.telegram_id == tid && p.name == pname) = []) :
    delete_personality db tid pname = (.err (notFoundMsg pname), db) := by
  simp only [delete_personality, h]

/-- The last-personality branch of `delete_personality`: the first matched
row is default and the user has exactly one personality. -/
theorem delete_personality_eq_last (db : ExcelDB) (tid : Int) (pname : String)
    (p0 : PersonalityRow) (rest : List PersonalityRow)
    (h : db.personalities.filter
      (fun p => p.telegram_id == tid && p.name == pname) = p0 :: rest)
    (hcond : ((db.personalities.filter (fun p => p.telegram_id == tid)).length == 1
      && p0.is_default) = true) :
    delete_personality db tid pname = (.err lastPersonalityMsg, db) := by
  simp only [delete_personality, h, hcond, if_true]

/-- The success branch of `delete_personality`: removes the matching rows. -/
theorem delete_personality_eq_ok (db : ExcelDB) (tid : Int) (pname : String)
    (p0 : PersonalityRow) (rest : List PersonalityRow)
    (h : db.personalities.filter
      (fun p => p.telegram_id == tid && p.name == pname) = p0 :: rest)
    (hcond : ((db.personalities.filter (fun p => p.telegram_id == tid)).length == 1
      && p0.is_default) = false) :
    delete_personality db tid pname =
      (.ok (deleteSuccessMsg pname),
        { db with personalities :=
            db.personalities.filter (fun p => !(p.telegram_id == tid && p.name == pname)) }) := by
  simp only [delete_personality, h, hcond, Bool.false_eq_true, if_false]

/-! Claim theorems. -/

/-- C3: a successful `create_personality` call with `is_default = true`
leaves exactly one personality with `is_default = true` for that user,
whatever the prior store state: every other personality of the user is
demoted as part of the same in-memory update that inserts the new row. -/
theorem create_personality_default_unique (db : ExcelDB) (tid : Int)
    (name description template : String) (temp : ℚ) (mt : Int) (pid now : String)
    (p : PersonalityRow) (db' : ExcelDB)
    (h : create_personality db tid name description template temp mt true pid now
      = (.ok p, db')) :
    countDefaults db' tid = 1 := by
  by_cases hdup : (db.personalities.filter
      (fun q => q.telegram_id == tid && q.name == name)).isEmpty = true
  · rw [create_personality_eq_ok db tid name description template temp mt true
      pid now hdup] at h
    injection h with h1 h2
    subst h2
    unfold countDefaults
    simp only [if_true]
    rw [List.filter_append, filter_default_of_demote]
    simp [newPersonalityRow]
  · rw [create_personality_eq_err db tid name description template temp mt true
      pid now (Bool.eq_false_iff.mpr hdup)] at h
    simp at h

/-- C3 witness: creating a default personality in the empty store leaves
exactly one default for the user. -/
theorem create_personality_default_unique_witness :
    countDefaults { users := [], personalities := [c3WitnessRow] } 7 = 1 :=
  create_personality_default_unique emptyExcelDB 7 "n" "d" "t" 1 100 "pid" "now"
    c3WitnessRow { users := [], personalities := [c3WitnessRow] } (by decide)

/-- C5: for a requested count `c ≥ 1` the limit handed to the fetch
capability is `min c 50`, hence at most `min c 50` items come back, and when
the capability has fewer available items the returned sequence has exactly
that smaller length. -/
theorem fetch_count_clamped (hA nA rA : List Post) (tA : String → List Post)
    (sort tf : String) (c : Int) (hc : 1 ≤ c) :
    1 ≤ clampLimit c ∧ clampLimit c ≤ c ∧ clampLimit c ≤ 50 ∧
    (getSubmissions (mkSubreddit hA nA rA tA) sort tf (clampLimit c)).length
        ≤ (clampLimit c).toNat ∧
    ((availOf hA nA rA tA sort tf).length ≤ (clampLimit c).toNat →
      (getSubmissions (mkSubreddit hA nA rA tA) sort tf (clampLimit c)).length
        = (availOf hA nA rA tA sort tf).length) := by
  refine ⟨le_min hc (by norm_num), min_le_left _ _, min_le_right _ _, ?_, ?_⟩
  · rw [getSubmissions_mk]
    unfold listingTake
    rw [List.length_take]
    exact min_le_left _ _
  · intro hav
    rw [getSubmissions_mk]
    unfold listingTake
    rw [List.length_take]
    exact min_eq_right hav

/-- C5 witness: requesting 10 items when only one is available returns
exactly one. -/
theorem fetch_count_clamped_witness :
    (1 : Int) ≤ 10 ∧
    ([samplePost] : List Post).length ≤ (clampLimit 10).toNat ∧
    (getSubmissions (mkSubreddit [samplePost] [samplePost] [samplePost]
      (fun _ => [samplePost])) "hot" "week" (clampLimit 10)).length
      = ([samplePost] : List Post).length :=
  ⟨by decide, by decide,
    (fetch_count_clamped [samplePost] [samplePost] [samplePost]
      (fun _ => [samplePost]) "hot" "week" 10 (by decide)).2.2.2.2 (by decide)⟩

/-- C6: for every sort mode other than `"top"` (unrecognized ones fall back
to `hot`), the submissions fetched are independent of the `time_filter`. -/
theorem time_filter_ignored_unless_top (sub : Subreddit) (sort tf1 tf2 : String)
    (limit : Int) (h : sort ≠ "top") :
    getSubmissions sub sort tf1 limit = getSubmissions sub sort tf2 limit := by
  have hb : (sort == "top") = false := beq_eq_false_iff_ne.mpr h
  unfold getSubmissions
  simp [hb]

/-- C6 witness: with sort `"hot"`, the windows `"day"` and `"week"` fetch
the same submissions. -/
theorem time_filter_ignored_unless_top_witness :
    ("hot" : String) ≠ "top" ∧
    getSubmissions sampleSubreddit "hot" "day" 5
      = getSubmissions sampleSubreddit "hot" "week" 5 :=
  ⟨by decide,
    time_filter_ignored_unless_top sampleSubreddit "hot" "day" "week" 5 (by decide)⟩

/-- C10: `create_personality` and `delete_personality` for user `u` leave
every personality row of a different user `v` unchanged, `is_default` flags
included: both the demotion pass and the deletion filter select only rows
whose `telegram_id` equals `u`. -/
theorem ops_do_not_touch_other_users (db : ExcelDB) (u v : Int) (h : v ≠ u)
    (name description template : String) (temp : ℚ) (mt : Int) (isDef : Bool)
    (pid now pname : String) :
    get_user_personalities
        (create_personality db u name description template temp mt isDef pid now).2 v
      = get_user_personalities db v ∧
    get_user_personalities (delete_personality db u pname).2 v
      = get_user_personalities db v := by
  have hvnew : (u == v) = false := beq_eq_false_iff_ne.mpr (fun e => h e.symm)
  constructor
  · by_cases hdup : (db.personalities.filter
        (fun p => p.telegram_id == u && p.name == name)).isEmpty = true
    · rw [create_personality_eq_ok db u name description template temp mt isDef
        pid now hdup]
      unfold get_user_personalities
      rw [List.filter_append]
      have hnew : List.filter (fun p => p.telegram_id == v)
          [newPersonalityRow u name description template temp mt isDef pid now]
            = [] := by
        simp [newPersonalityRow, hvnew]
      rw [hnew, List.append_nil]
      by_cases hd : isDef
      · rw [if_pos hd, filter_other_of_demote db.personalities u v h]
      · rw [if_neg hd]
    · rw [create_personality_eq_err db u name description template temp mt isDef
        pid now (Bool.eq_false_iff.mpr hdup)]
  · cases hfd : db.personalities.filter
        (fun p => p.telegram_id == u && p.name == pname) with
    | nil => rw [delete_personality_eq_notFound db u pname hfd]
    | cons p0 rest =>
      by_cases hcond : ((db.personalities.filter
          (fun p => p.telegram_id == u)).length == 1 && p0.is_default) = true
      · rw [delete_personality_eq_last db u pname p0 rest hfd hcond]
      · rw [delete_personality_eq_ok db u pname p0 rest hfd
          (Bool.eq_false_iff.mpr hcond)]
        unfold get_user_personalities
        exact filter_other_of_remove db.personalities u v pname h

/-- C10 witness: operations for user 7 leave the rows of user 8 unchanged in
the store holding only user 7's row. -/
theorem ops_do_not_touch_other_users_witness :
    (8 : Int) ≠ 7 ∧
    get_user_personalities
        (create_personality soloDB 7 "n" "d" "t" 1 100 true "pid" "now").2 8
      = get_user_personalities soloDB 8 ∧
    get_user_personalities (delete_personality soloDB 7 "solo").2 8
      = get_user_personalities soloDB 8 :=
  ⟨by decide,
    (ops_do_not_touch_other_users soloDB 7 8 (by decide) "n" "d" "t" 1 100 true
      "pid" "now" "solo").1,
    (ops_do_not_touch_other_users soloDB 7 8 (by decide) "n" "d" "t" 1 100 true
      "pid" "now" "solo").2⟩

/-- C4: `get_or_create_user` is idempotent. For an id the store has not seen,
calling it twice returns a user row with that id both times (the very same
row), the second call changes nothing, and the store is left with exactly the
seeded personality named "default" as the id's sole default personality. -/
theorem get_or_create_user_idempotent (db : ExcelDB) (tid : Int)
    (un fn un2 fn2 : Option String) (pid now pid2 now2 : String)
    (habs : findUser db tid = none)
    (hnop : get_user_personalities db tid = []) :
    (get_or_create_user db tid un fn pid now).1.telegram_id = tid ∧
    (get_or_create_user (get_or_create_user db tid un fn pid now).2
        tid un2 fn2 pid2 now2).1
      = (get_or_create_user db tid un fn pid now).1 ∧
    (get_or_create_user (get_or_create_user db tid un fn pid now).2
        tid un2 fn2 pid2 now2).2
      = (get_or_create_user db tid un fn pid now).2 ∧
    (get_or_create_user db tid un fn pid now).2.personalities.filter
        (fun p => p.telegram_id == tid && p.is_default)
      = [seedPersonality tid pid now] := by
  have hnop' := hnop
  unfold get_user_personalities at hnop'
  have hfind : findUser (freshDB db tid un fn pid now) tid
      = some (freshUserRow tid un fn now) := by
    unfold findUser at habs ⊢
    unfold freshDB
    rw [List.find?_append, habs, Option.none_or]
    simp [freshUserRow]
  have h2 : get_or_create_user (freshDB db tid un fn pid now) tid un2 fn2 pid2 now2
      = (freshUserRow tid un fn now, freshDB db tid un fn pid now) := by
    unfold get_or_create_user
    rw [hfind]
  simp only [get_or_create_user_fresh db tid un fn pid now habs hnop, h2]
  refine ⟨rfl, trivial, trivial, ?_⟩
  unfold freshDB
  rw [List.filter_append, filter_and_eq_nil db.personalities tid hnop'
    (fun p => p.is_default)]
  simp [seedPersonality]

/-- C4 witness: creating user 7 twice in the empty store returns id 7 both
times, leaves the store unchanged after the second call, and leaves exactly
the seeded default personality. -/
theorem get_or_create_user_idempotent_witness :
    (get_or_create_user emptyExcelDB 7 none none "pid" "now").1.telegram_id = 7 ∧
    (get_or_create_user (get_or_create_user emptyExcelDB 7 none none "pid" "now").2
        7 none none "pid2" "now2").2
      = (get_or_create_user emptyExcelDB 7 none none "pid" "now").2 ∧
    (get_or_create_user emptyExcelDB 7 none none "pid" "now").2.personalities.filter
        (fun p => p.telegram_id == 7 && p.is_default)
      = [seedPersonality 7 "pid" "now"] := by
  have h := get_or_create_user_idempotent emptyExcelDB 7 none none none none
    "pid" "now" "pid2" "now2" (by decide) (by decide)
  exact ⟨h.1, h.2.2.1, h.2.2.2⟩

/-- C7: resolving the personality name "default" immediately after
`get_or_create_user` on an unseen id returns the seeded personality: named
"default", flagged default, temperature 0.7 (`mkRat 7 10`), max length 100. -/
theorem resolve_default_after_user_creation (db : ExcelDB) (tid : Int)
    (un fn : Option String) (pid now : String)
    (habs : findUser db tid = none)
    (hnop : get_user_personalities db tid = []) :
    resolvePersonality (get_or_create_user db tid un fn pid now).2 tid "default"
      = some (seedPersonality tid pid now) ∧
    (seedPersonality tid pid now).name = "default" ∧
    (seedPersonality tid pid now).is_default = true ∧
    (seedPersonality tid pid now).temperature = mkRat 7 10 ∧
    (seedPersonality tid pid now).max_tokens = 100 := by
  refine ⟨?_, rfl, rfl, rfl, rfl⟩
  have hnop' := hnop
  unfold get_user_personalities at hnop'
  simp only [get_or_create_user_fresh db tid un fn pid now habs hnop]
  unfold resolvePersonality get_user_personalities freshDB
  simp only [List.filter_append, hnop', List.nil_append]
  simp [seedPersonality]

/-- C7 witness: in the empty store, user 7's "default" resolves to the seed
right after creation. -/
theorem resolve_default_after_user_creation_witness :
    resolvePersonality (get_or_create_user emptyExcelDB 7 none none "pid" "now").2
        7 "default"
      = some (seedPersonality 7 "pid" "now") ∧
    (seedPersonality 7 "pid" "now").temperature = mkRat 7 10 ∧
    (seedPersonality 7 "pid" "now").max_tokens = 100 := by
  have h := resolve_default_after_user_creation emptyExcelDB 7 none none
    "pid" "now" (by decide) (by decide)
  exact ⟨h.1, h.2.2.2.1, h.2.2.2.2⟩

/-- C2 counterexample: in a store where user 7's only personality "solo" is
not flagged default, `delete_personality` succeeds and removes the row — it
does not fail with the last-personality error, and the store changes —
refuting the claim's "even if it is not currently the default". -/
theorem delete_sole_nondefault_personality_succeeds :
    delete_personality soloDB 7 "solo"
      = (.ok (deleteSuccessMsg "solo"), emptyExcelDB) ∧
    (delete_personality soloDB 7 "solo").2 ≠ soloDB := by
  refine ⟨by decide, by decide⟩

/-- C2 (amended): `delete_personality` fails with the not-found error when no
personality of that name exists for the user; fails with the
last-personality error when the named personality is the user's only
remaining one **and is flagged default** (a sole non-default personality is
deleted); and every failure leaves the store unchanged. -/
theorem delete_personality_failure_behaviour (db : ExcelDB) (tid : Int)
    (pname : String) :
    (db.personalities.filter (fun p => p.telegram_id == tid && p.name == pname) = [] →
      delete_personality db tid pname = (.err (notFoundMsg pname), db)) ∧
    (∀ p0 rest,
      db.personalities.filter (fun p => p.telegram_id == tid && p.name == pname)
          = p0 :: rest →
      (get_user_personalities db tid).length = 1 → p0.is_default = true →
      delete_personality db tid pname = (.err lastPersonalityMsg, db)) ∧
    (∀ msg db', delete_personality db tid pname = (.err msg, db') → db' = db) := by
  refine ⟨fun h => delete_personality_eq_notFound db tid pname h, ?_, ?_⟩
  · intro p0 rest hfd hlen hdef
    apply delete_personality_eq_last db tid pname p0 rest hfd
    unfold get_user_personalities at hlen
    simp [hlen, hdef]
  · intro msg db' h
    cases hfd : db.personalities.filter
        (fun p => p.telegram_id == tid && p.name == pname) with
    | nil =>
      rw [delete_personality_eq_notFound db tid pname hfd] at h
      injection h with h1 h2
      exact h2.symm
    | cons p0 rest =>
      by_cases hcond : ((db.personalities.filter
          (fun p => p.telegram_id == tid)).length == 1 && p0.is_default) = true
      · rw [delete_personality_eq_last db tid pname p0 rest hfd hcond] at h
        injection h with h1 h2
        exact h2.symm
      · rw [delete_personality_eq_ok db tid pname p0 rest hfd
          (Bool.eq_false_iff.mpr hcond)] at h
        injection h with h1 h2
        cases h1

/-- C2 amended witness: deleting a missing name fails not-found and leaves
the store unchanged; deleting the sole default personality fails with the
last-personality error and leaves the store unchanged. -/
theorem delete_personality_failure_behaviour_witness :
    delete_personality soloDB 7 "nope" = (.err (notFoundMsg "nope"), soloDB) ∧
    delete_personality defaultOnlyDB 7 "default"
      = (.err lastPersonalityMsg, defaultOnlyDB) :=
  ⟨(delete_personality_failure_behaviour soloDB 7 "nope").1 (by decide),
   (delete_personality_failure_behaviour defaultOnlyDB 7 "default").2.1
     sampleDefaultRow [] (by decide) (by decide) (by decide)⟩

/-- C1 counterexample: with every rewrite call failing, the record the Flask
loop builds for a post is byte-for-byte the record built when the rewrite
succeeds returning the original title, and its keys are exactly the fixed
eleven — no error-marker field exists, refuting "each carrying an error
marker". -/
theorem failed_rewrite_record_has_no_error_marker :
    processPost failingCap true (some sampleDefaultRow) "test" samplePost
      = processPost (fun _ _ _ => .ok "Hello Reddit") true (some sampleDefaultRow)
          "test" samplePost ∧
    (processPost failingCap true (some sampleDefaultRow) "test" samplePost).map
        Prod.fst
      = ["id", "title", "score", "url", "permalink", "created_utc", "author",
         "subreddit", "original_title", "ai_title", "personality_used"] := by
  refine ⟨by decide, by decide⟩

/-- C1 (amended): when the rewrite capability fails on every call, the Flask
loop still returns exactly N output records and never aborts; each record's
`ai_title` is the fallback equal to the original title, non-empty whenever
the original is. (No separate error-marker field is attached.) -/
theorem rewrite_failures_absorbed (posts : List Post) (pers : PersonalityRow)
    (subredditName : String) (cap : String → ℚ → Int → Except String String)
    (hfail : ∀ pr t m, ∃ e, cap pr t m = Except.error e)
    (htitles : ∀ p ∈ posts, p.title ≠ "") :
    (processPosts cap true (some pers) subredditName posts).length = posts.length ∧
    ∀ p ∈ posts,
      (processPost cap true (some pers) subredditName p).lookup "ai_title"
        = some (JValue.s p.title) ∧ p.title ≠ "" := by
  constructor
  · exact List.length_map posts _
  · intro p hp
    refine ⟨?_, htitles p hp⟩
    obtain ⟨e, he⟩ := hfail (pyReplace pers.prompt_template "{original_title}" p.title)
      pers.temperature pers.max_tokens
    simp only [processPost, he]
    rfl

/-- C1 amended witness: one post, all rewrites failing: one record comes
back and its `ai_title` is the original title. -/
theorem rewrite_failures_absorbed_witness :
    (processPosts failingCap true (some sampleDefaultRow) "test" [samplePost]).length
      = 1 ∧
    (processPost failingCap true (some sampleDefaultRow) "test" samplePost).lookup
        "ai_title"
      = some (JValue.s "Hello Reddit") := by
  have h := rewrite_failures_absorbed [samplePost] sampleDefaultRow "test"
    failingCap (fun pr t m => ⟨"AI Error", rfl⟩) (by decide)
  exact ⟨h.1, (h.2 samplePost (by decide)).1⟩

/-- C8 counterexample: the Flask success and failure envelopes do not carry
the same field set — the success envelope has `ai_used` and
`personality_used` in addition — refuting "the same set of fields" for the
Flask revision. -/
theorem flask_envelope_shapes_differ :
    envKeys (flaskSuccessEnvelope "t" "python" 7 [] false none)
      ≠ envKeys (flaskFailureEnvelope "t" 7 "boom") := by decide

/-- C8 (amended): in the FastAPI revision every response envelope has the
same five fields whatever the outcome, distinguished only by the status
value; in the Flask revision the failure envelope's fields are a strict
prefix of the success envelope's, which appends `ai_used` and
`personality_used`; both paths use status "completed" / "failed". -/
theorem envelope_shape_uniformity (r1 r2 : ScrapeResponse)
    (task_id sub errMsg : String) (tid : Int)
    (results : List (List (String × JValue))) (use_ai : Bool)
    (pers : Option PersonalityRow) :
    envKeys r1.to_dict = envKeys r2.to_dict ∧
    envKeys (flaskSuccessEnvelope task_id sub tid results use_ai pers)
      = envKeys (flaskFailureEnvelope task_id tid errMsg)
          ++ ["ai_used", "personality_used"] ∧
    (flaskSuccessEnvelope task_id sub tid results use_ai pers).lookup "status"
      = some (.j (.s "completed")) ∧
    (flaskFailureEnvelope task_id tid errMsg).lookup "status"
      = some (.j (.s "failed")) :=
  ⟨rfl, rfl, rfl, rfl⟩

/-- C9: in the FastAPI revision, a request naming a personality the resolved
user does not have never surfaces an HTTP error: the 404 exception is caught
by the handler's generic except branch and the normal envelope comes back
with status "failed" and the exception text as the message. -/
theorem missing_personality_returns_failed_envelope (db : SqlDB)
    (req : ScrapeRequest) (fetch : Except String (List Post))
    (aiTitle : String → String → ℚ → Int → String)
    (freshUid freshPid : Int) (task_id : String)
    (hmiss : findSimplePersonality
      (resolveUserSimple db req.telegram_id freshUid freshPid).2
      (resolveUserSimple db req.telegram_id freshUid freshPid).1.user_id
      req.personality_name = none) :
    scrape_reddit_simple db req fetch aiTitle freshUid freshPid task_id =
      ({ task_id := task_id
         status := "failed"
         message := pyStr (.http 404
           ("Personality \x27" ++ req.personality_name ++ "\x27 not found"))
         telegram_id := req.telegram_id
         results := none },
       (resolveUserSimple db req.telegram_id freshUid freshPid).2) := by
  unfold scrape_reddit_simple scrapeSimpleBody
  simp only [hmiss]

/-- C9 witness: a request from the known user 7 naming the absent
personality "missing" yields the failed envelope, not an HTTP error. -/
theorem missing_personality_returns_failed_envelope_witness :
    scrape_reddit_simple sampleSqlDB sampleMissingReq (.ok [])
        (fun _ _ _ _ => "x") 99 98 "tid0" =
      ({ task_id := "tid0"
         status := "failed"
         message := pyStr (.http 404
           ("Personality \x27" ++ sampleMissingReq.personality_name ++ "\x27 not found"))
         telegram_id := sampleMissingReq.telegram_id
         results := none },
       (resolveUserSimple sampleSqlDB sampleMissingReq.telegram_id 99 98).2) :=
  missing_personality_returns_failed_envelope sampleSqlDB sampleMissingReq
    (.ok []) (fun _ _ _ _ => "x") 99 98 "tid0" (by decide)

end RedditScraper
